import Mathlib

/-
Verification of the realtime-eval ingestion-to-dataset pipeline.

The Python sources are shallowly embedded as Lean functions.  Network calls,
the LLM backend, the JSON parser applied to LLM replies, and the stdlib
strptime/strftime routines are external collaborators: they are modelled as
explicit oracle arguments (a function giving the outcome of each call), and
the control flow around them is translated from the source line by line.
Python exceptions escaping a function are modelled by an Option result
(none = an uncaught exception propagates); exceptions caught inside the
translated code are handled exactly where the corresponding except-clause
sits in the source.
-/

set_option maxRecDepth 100000

namespace RealtimeEval

/-- Article dataclass from src/realtime_eval/core/question_generator.py.
Optional fields mirror the Python Optional[str] fields (default None). -/
structure Article where
  title : String
  link : String
  date : String
  content : Option String
  question : Option String
  answer : Option String
  answer_context : Option String
  deriving DecidableEq

/-- Outcome of one evaluator LLM call in evaluate_questions (one call per
batch): either the list of batch-local indices parsed from the JSON reply,
or an exception raised anywhere in the call, response access or parsing
(the try-block of the source covers all of it). -/
inductive EvalOutcome where
  | ok (indices : List Nat)
  | exn
  deriving DecidableEq

/-- The batch decomposition performed by the loop
for i in range(0, len(articles), 5): batch = articles[i:i+5]
in evaluate_questions.  Batch b starts at element 5*b; there are
ceil(len/5) = (len+4)/5 batches. -/
def batches (articles : List Article) : List (List Article) :=
  (List.range ((articles.length + 4) / 5)).map
    (fun b => (articles.drop (5 * b)).take 5)

/-- Loop body of evaluate_questions.  Carries the batch counter b, the
running offset and the accumulated indices_to_keep.  On a successful batch
the batch-local indices are shifted by the current offset and the offset
advances by exactly 5; on an exception the whole function returns the
empty list (the except-clause at the bottom of evaluate_questions). -/
def evalGo (oracle : Nat → EvalOutcome) :
    List (List Article) → Nat → Nat → List Nat → List Nat
  | [], _, _, acc => acc
  | _ :: rest, b, off, acc =>
    match oracle b with
    | EvalOutcome.ok ks =>
        evalGo oracle rest (b + 1) (off + 5) (acc ++ ks.map (fun k => k + off))
    | EvalOutcome.exn => []

/-- evaluate_questions from src/realtime_eval/core/question_generator.py.
The oracle gives the outcome of the b-th LLM call (the call made for
batch b). -/
def evaluate_questions (articles : List Article) (oracle : Nat → EvalOutcome) :
    List Nat :=
  evalGo oracle (batches articles) 0 0 []

/-- The final selection in process_articles:
return [articles[i] for i in indices_to_keep].
An out-of-range index raises IndexError in Python, which escapes
process_articles; that is the none case here. -/
def selectIndices (articles : List Article) : List Nat → Option (List Article)
  | [] => some []
  | i :: rest =>
    match articles[i]? with
    | some a => (selectIndices articles rest).map (fun out => a :: out)
    | none => none

/-- A throwaway article value used to build concrete runs. -/
def sampleArticle : Article :=
  { title := "t", link := "l", date := "d", content := none,
    question := some "q", answer := some "a", answer_context := none }

theorem evalGo_ok (oracle : Nat → EvalOutcome) (ks : Nat → List Nat)
    (hok : ∀ b, oracle b = EvalOutcome.ok (ks b))
    (batchList : List (List Article)) :
    ∀ (b : Nat) (acc : List Nat),
      evalGo oracle batchList b (5 * b) acc =
        acc ++ ((List.range batchList.length).map
          (fun j => (ks (b + j)).map (fun k => k + 5 * (b + j)))).flatten := by
  induction batchList with
  | nil => intro b acc; simp [evalGo]
  | cons B rest ih =>
    intro b acc
    have h5 : 5 * b + 5 = 5 * (b + 1) := by ring
    simp only [evalGo, hok b, h5]
    rw [ih (b + 1)]
    rw [List.length_cons, List.range_succ_eq_map]
    simp only [List.map_cons, List.map_map, List.flatten_cons,
      List.append_assoc, Nat.add_zero]
    congr 2
    refine congrArg List.flatten (List.map_congr_left ?_)
    intro j _
    simp only [Function.comp_apply, Nat.succ_eq_add_one]
    rw [show b + 1 + j = b + (j + 1) by omega]

theorem evalGo_exn (oracle : Nat → EvalOutcome)
    (batchList : List (List Article)) :
    ∀ (b off : Nat) (acc : List Nat),
      (∃ j, j < batchList.length ∧ oracle (b + j) = EvalOutcome.exn) →
      evalGo oracle batchList b off acc = [] := by
  induction batchList with
  | nil =>
    rintro b off acc ⟨j, hj, _⟩
    simp at hj
  | cons B rest ih =>
    rintro b off acc ⟨j, hj, hexn⟩
    cases ho : oracle b with
    | exn => simp [evalGo, ho]
    | ok ks =>
      simp only [evalGo, ho]
      apply ih
      cases j with
      | zero =>
        rw [Nat.add_zero] at hexn
        rw [hexn] at ho
        cases ho
      | succ j' =>
        refine ⟨j', by simpa using hj, ?_⟩
        rw [← hexn]
        congr 1
        omega

theorem batches_len_twelve (l : List Article) (hl : l.length = 12) :
    (batches l).map List.length = [5, 5, 2] := by
  simp [batches, hl, List.range_succ, List.length_take, List.length_drop]

theorem evaluate_questions_ok_eq (articles : List Article)
    (oracle : Nat → EvalOutcome) (ks : Nat → List Nat)
    (hok : ∀ b, oracle b = EvalOutcome.ok (ks b)) :
    evaluate_questions articles oracle =
      ((List.range (batches articles).length).map
        (fun b => (ks b).map (fun k => 5 * b + k))).flatten := by
  have h := evalGo_ok oracle ks hok (batches articles) 0 []
  simp only [Nat.mul_zero] at h
  rw [evaluate_questions]
  rw [h]
  simp only [List.nil_append, Nat.zero_add]
  refine congrArg List.flatten (List.map_congr_left ?_)
  intro j _
  refine List.map_congr_left ?_
  intro k _
  omega

/-- C1: evaluator offset law.  With batch size 5, when every batch call
succeeds, a batch-local index k returned for batch b lands at global
position 5*b + k (the running offset advances by exactly 5 after every
batch, whatever the size of that batch); and an input list of length 12
is split into batches of sizes 5, 5, 2. -/
theorem evaluator_offset_law (articles : List Article)
    (oracle : Nat → EvalOutcome) (ks : Nat → List Nat)
    (hok : ∀ b, oracle b = EvalOutcome.ok (ks b)) :
    evaluate_questions articles oracle =
      ((List.range (batches articles).length).map
        (fun b => (ks b).map (fun k => 5 * b + k))).flatten ∧
    ∀ l : List Article, l.length = 12 → (batches l).map List.length = [5, 5, 2] :=
  ⟨evaluate_questions_ok_eq articles oracle ks hok,
   fun l hl => batches_len_twelve l hl⟩

/-- Concrete 12-candidate run used to witness the offset law. -/
def arts12 : List Article := List.replicate 12 sampleArticle

/-- Concrete batch-local keep lists for the witness run. -/
def ks12 : Nat → List Nat :=
  fun b => if b = 0 then [1, 3] else if b = 1 then [0] else [0, 1]

/-- Concrete all-successful evaluator oracle for the witness run. -/
def orc12 : Nat → EvalOutcome := fun b => EvalOutcome.ok (ks12 b)

theorem evaluator_offset_law_witness :
    evaluate_questions arts12 orc12 = [1, 3, 5, 10, 11] ∧
    (batches arts12).map List.length = [5, 5, 2] := by
  have h := evaluator_offset_law arts12 orc12 ks12 (fun b => rfl)
  exact ⟨h.1.trans (by decide), h.2 arts12 (by decide)⟩

/-- C2: evaluator fail-closed law.  If the LLM call (or its response
parsing) for any batch that the loop reaches raises, evaluate_questions
returns the empty keep-set for the entire run, discarding the indices
already collected from earlier batches. -/
theorem evaluator_fail_closed (articles : List Article)
    (oracle : Nat → EvalOutcome) (b : Nat)
    (hb : b < (batches articles).length)
    (hexn : oracle b = EvalOutcome.exn) :
    evaluate_questions articles oracle = [] := by
  apply evalGo_exn
  exact ⟨b, hb, by simpa using hexn⟩

/-- Concrete six-candidate run whose second batch raises. -/
def arts6 : List Article := List.replicate 6 sampleArticle

/-- Concrete evaluator oracle whose batch 1 raises after batch 0 returned
a valid index. -/
def orcExn : Nat → EvalOutcome :=
  fun b => if b = 1 then EvalOutcome.exn else EvalOutcome.ok [0]

theorem evaluator_fail_closed_witness :
    evaluate_questions arts6 orcExn = [] :=
  evaluator_fail_closed arts6 orcExn 1 (by decide) (by decide)

/-- A Python datetime value as the pipeline observes it.  The instant is a
count of seconds; for a timezone-aware value it is the absolute instant,
for a naive value it is the wall-clock reading taken as UTC.  Python
compares two aware datetimes by absolute instant and two naive datetimes
by wall clock, and both feed_handler functions always compare a parsed
value against a now of the same kind (datetime.now of the value's own
tzinfo when aware, datetime.utcnow when naive), so under this reading
every comparison in the source is a comparison of the instant fields.
The tz field records the tzinfo carried by the value. -/
structure PyDateTime where
  instant : Int
  tz : Option Int
  deriving DecidableEq

/-- The ordered format list from src/realtime_eval/core/feed_handler.py. -/
def date_formats : List String :=
  ["%a, %d %b %Y %H:%M:%S %z", "%a, %d %b %Y %H:%M:%S GMT"]

/-- Loop of is_within_24_hours over the format list.  strptime is the
stdlib parser, modelled as an oracle: none is the ValueError branch that
makes the loop try the next format, some is a successful parse after which
the function immediately returns the comparison date > now - 1 day.
nowUtc is the current absolute instant in seconds, so now - timedelta 1
has instant nowUtc - 86400 in both the aware and the naive branch. -/
def withinGo (strptime : String → String → Option PyDateTime) (nowUtc : Int)
    (date_str : String) : List String → Bool
  | [] => false
  | fmt :: rest =>
    match strptime date_str fmt with
    | some date => decide (date.instant > nowUtc - 86400)
    | none => withinGo strptime nowUtc date_str rest

/-- is_within_24_hours from src/realtime_eval/core/feed_handler.py. -/
def is_within_24_hours (strptime : String → String → Option PyDateTime)
    (nowUtc : Int) (date_str : String) : Bool :=
  withinGo strptime nowUtc date_str date_formats

/-- Loop of format_date over the format list.  strftime is the stdlib
formatter applied on success; the empty-list case is the final
raise ValueError of format_date, modelled as none. -/
def formatGo (strptime : String → String → Option PyDateTime)
    (strftime : PyDateTime → String) (date_str : String) :
    List String → Option String
  | [] => none
  | fmt :: rest =>
    match strptime date_str fmt with
    | some date => some (strftime date)
    | none => formatGo strptime strftime date_str rest

/-- format_date from src/realtime_eval/core/feed_handler.py.  A none
result is the uncaught ValueError raised when no format matches. -/
def format_date (strptime : String → String → Option PyDateTime)
    (strftime : PyDateTime → String) (date_str : String) : Option String :=
  formatGo strptime strftime date_str date_formats

theorem withinGo_eq_findSome? (strptime : String → String → Option PyDateTime)
    (nowUtc : Int) (s : String) (fmts : List String) :
    withinGo strptime nowUtc s fmts =
      match fmts.findSome? (fun fmt => strptime s fmt) with
      | some d => decide (d.instant > nowUtc - 86400)
      | none => false := by
  induction fmts with
  | nil => simp [withinGo]
  | cons fmt rest ih =>
    rw [withinGo, List.findSome?_cons]
    cases strptime s fmt with
    | some d => rfl
    | none => simpa using ih

theorem formatGo_eq_findSome? (strptime : String → String → Option PyDateTime)
    (strftime : PyDateTime → String) (s : String) (fmts : List String) :
    formatGo strptime strftime s fmts =
      (fmts.findSome? (fun fmt => strptime s fmt)).map strftime := by
  induction fmts with
  | nil => simp [formatGo]
  | cons fmt rest ih =>
    rw [formatGo, List.findSome?_cons]
    cases strptime s fmt with
    | some d => rfl
    | none => simpa using ih

/-- C5: recency filter.  is_within_24_hours tries the ordered format list,
the first successful parse wins, and the result is exactly the strict
comparison parsed instant > now - 24 hours; when no format parses the
string, the result is false (fail closed).  The aware/naive handling of
the source is carried by the PyDateTime encoding: now is aware in the
parsed value's own zone when that value is aware and naive UTC otherwise,
so the comparison is the instant comparison in both branches. -/
theorem recency_filter_spec (strptime : String → String → Option PyDateTime)
    (nowUtc : Int) (s : String) :
    is_within_24_hours strptime nowUtc s =
      match date_formats.findSome? (fun fmt => strptime s fmt) with
      | some d => decide (d.instant > nowUtc - 86400)
      | none => false :=
  withinGo_eq_findSome? strptime nowUtc s date_formats

/-- C10: every date string accepted by is_within_24_hours is also parsed
by format_date, because both functions try exactly the same date_formats
list with the same parser; the ValueError branch of format_date is
unreachable for strings that passed the recency filter. -/
theorem within24_implies_format_date_some
    (strptime : String → String → Option PyDateTime)
    (strftime : PyDateTime → String) (nowUtc : Int) (s : String)
    (h : is_within_24_hours strptime nowUtc s = true) :
    (format_date strptime strftime s).isSome = true := by
  rw [format_date, formatGo_eq_findSome?]
  rw [is_within_24_hours, withinGo_eq_findSome?] at h
  cases hfs : date_formats.findSome? (fun fmt => strptime s fmt) with
  | none => rw [hfs] at h; simp at h
  | some d => simp

/-- Concrete strptime oracle that parses only the string ts under the
first format, to a value 100 seconds after the epoch. -/
def strptimeW : String → String → Option PyDateTime :=
  fun s fmt =>
    if s = "ts" && fmt = "%a, %d %b %Y %H:%M:%S %z" then
      some { instant := 100, tz := some 0 }
    else none

theorem within24_implies_format_date_some_witness :
    is_within_24_hours strptimeW 50 "ts" = true ∧
    (format_date strptimeW (fun _ => "2025-01-01 00:00:00") "ts").isSome = true :=
  ⟨by decide,
   within24_implies_format_date_some strptimeW
     (fun _ => "2025-01-01 00:00:00") 50 "ts" (by decide)⟩

/-- Python str.strip of leading whitespace on the character list. -/
def dropWhileWs : List Char → List Char
  | [] => []
  | c :: cs => if c.isWhitespace then dropWhileWs cs else c :: cs

/-- Python str.strip: whitespace removed from both ends. -/
def pyStrip (s : String) : String :=
  String.mk ((dropWhileWs ((dropWhileWs s.data).reverse)).reverse)

/-- Outcome of the fetch-and-render part of extract_article_content for
one url: the download future timed out, the download or parse raised some
other exception, or parsing produced the article text. -/
inductive FetchOutcome where
  | timeout
  | exn
  | ok (text : String)
  deriving DecidableEq

/-- extract_article_content from
src/realtime_eval/core/content_extractor.py.  The timeout branch is the
concurrent.futures.TimeoutError handler, the exn branch the final
except Exception handler; on success the text is stripped and rejected
when shorter than min_content_length (the source's default is 500, which
is what process_articles uses).  The function is total: no exception
escapes it. -/
def extract_article_content (outcome : FetchOutcome)
    (min_content_length : Nat) : Option String :=
  match outcome with
  | FetchOutcome.timeout => none
  | FetchOutcome.exn => none
  | FetchOutcome.ok text =>
    let content := pyStrip text
    if content.length < min_content_length then none else some content

/-- C6: the content extractor returns no content, and never propagates an
exception (it is a total function into Option), in each failure case:
download timeout, any other fetch or render exception, and a fetched body
whose stripped length is below min_content_length. -/
theorem extractor_skip_semantics (m : Nat) (text : String)
    (hshort : (pyStrip text).length < m) :
    extract_article_content FetchOutcome.timeout m = none ∧
    extract_article_content FetchOutcome.exn m = none ∧
    extract_article_content (FetchOutcome.ok text) m = none := by
  refine ⟨rfl, rfl, ?_⟩
  simp only [extract_article_content]
  rw [if_pos hshort]

theorem extractor_skip_semantics_witness :
    (pyStrip " short ").length < 500 ∧
    extract_article_content (FetchOutcome.ok " short ") 500 = none :=
  ⟨by decide, (extractor_skip_semantics 500 " short " (by decide)).2.2⟩

/-- One element of the qa_pairs array in the generator's JSON reply: a
JSON object with possibly missing keys, or a JSON value that is not an
object at all (indexing it with a string key raises in Python). -/
inductive QAPairObj where
  | notDict
  | obj (question : Option String) (answer : Option String)
      (answer_context : Option String)
  deriving DecidableEq

/-- The parsed top-level JSON value of the generator reply: an object,
carrying the qa_pairs array (the empty list when the key is absent, which
is what result.get with default gives), or a non-object value on which
the .get attribute access raises. -/
inductive GenParsed where
  | notDict
  | dict (qa_pairs : List QAPairObj)
  deriving DecidableEq

/-- Outcome of the generator LLM call in generate_questions_and_answers:
the API call raised, the reply content was None or empty, the content was
not valid JSON (json.loads raised JSONDecodeError), or it parsed. -/
inductive GenResponse where
  | exn
  | empty
  | notJson
  | json (parsed : GenParsed)
  deriving DecidableEq

/-- generate_questions_and_answers from
src/realtime_eval/core/question_generator.py.  All exception paths are
caught inside the function (JSONDecodeError and the blanket Exception
handler), so it is total; none is the Python return None.  The SKIP
sentinel is detected on the question of the first pair only, exactly as
in the source. -/
def generate_questions_and_answers (resp : GenResponse) :
    Option (List QAPairObj) :=
  match resp with
  | GenResponse.exn => none
  | GenResponse.empty => none
  | GenResponse.notJson => none
  | GenResponse.json GenParsed.notDict => none
  | GenResponse.json (GenParsed.dict qa_pairs) =>
    match qa_pairs with
    | [] => none
    | QAPairObj.notDict :: _ => none
    | QAPairObj.obj q _ _ :: _ =>
      if q = some "SKIP" then none else some qa_pairs

/-- C7: the generator returns the failure signal none, and never raises,
for every malformed reply (call exception, empty content, non-JSON
content, non-object JSON, missing or empty qa_pairs array, first pair not
an object), and the reserved SKIP sentinel in the first pair's question
also yields none, that is zero candidates, instead of an error escaping
to the caller.  Totality, the no-crash half, is the type of
generate_questions_and_answers itself. -/
theorem generator_malformed_and_skip :
    generate_questions_and_answers GenResponse.exn = none ∧
    generate_questions_and_answers GenResponse.empty = none ∧
    generate_questions_and_answers GenResponse.notJson = none ∧
    generate_questions_and_answers (GenResponse.json GenParsed.notDict) = none ∧
    generate_questions_and_answers (GenResponse.json (GenParsed.dict [])) = none ∧
    (∀ rest : List QAPairObj,
      generate_questions_and_answers
        (GenResponse.json (GenParsed.dict (QAPairObj.notDict :: rest))) = none) ∧
    (∀ (a c : Option String) (rest : List QAPairObj),
      generate_questions_and_answers
        (GenResponse.json
          (GenParsed.dict (QAPairObj.obj (some "SKIP") a c :: rest))) = none) := by
  refine ⟨rfl, rfl, rfl, rfl, rfl, fun rest => rfl, ?_⟩
  intro a c rest
  simp [generate_questions_and_answers]

/-- One feed record from the feeds.json list. -/
structure Feed where
  name : String
  url : String
  deriving DecidableEq

/-- One parsed feed entry as process_articles reads it; each field is
looked up with entry.get and a default string, so a missing key is the
none case here. -/
structure FeedEntry where
  title : Option String
  link : Option String
  published : Option String
  deriving DecidableEq

/-- The external collaborators of one process_articles run: the feed
fetch (a failed fetch gives an empty entries list, exactly what
fetch_feed returns then), the stdlib strptime and strftime, the clock,
the per-url fetch-and-render outcome inside extract_article_content, the
per-call generator LLM outcome (the call is determined by the title and
content sent), and the per-batch evaluator LLM outcome. -/
structure Oracles where
  fetch : String → List FeedEntry
  strptime : String → String → Option PyDateTime
  strftime : PyDateTime → String
  nowUtc : Int
  fetchArticle : String → FetchOutcome
  genResp : String → String → GenResponse
  evalResp : Nat → EvalOutcome

/-- Building one Article from one qa_pair dict in process_articles.
The source indexes qa_pair with the keys question, answer and
answer_context; a missing key raises KeyError and a non-dict pair raises
TypeError, both of which are the none case. -/
def mkArticle (title link date content : String) (p : QAPairObj) :
    Option Article :=
  match p with
  | QAPairObj.notDict => none
  | QAPairObj.obj q a c =>
    match q, a, c with
    | some q, some a, some c =>
      some { title := title, link := link, date := date,
             content := some content, question := some q, answer := some a,
             answer_context := some c }
    | _, _, _ => none

/-- The append loop for qa_pair in qa_pairs of process_articles.  The
first pair on which the Article construction raises stops the loop; the
exception is caught by the per-article except handler, so the articles
already appended for earlier pairs remain in the accumulated list. -/
def appendPairs (title link date content : String) :
    List QAPairObj → List Article
  | [] => []
  | p :: rest =>
    match mkArticle title link date content p with
    | some a => a :: appendPairs title link date content rest
    | none => []

/-- The per-entry body of process_articles: format_date is evaluated
outside the try block, so its ValueError aborts the whole run (the none
result); everything inside the try degrades to fewer or zero appended
articles for this entry.  process_articles calls extract_article_content
with the default min_content_length of 500. -/
def processEntry (o : Oracles) (e : FeedEntry) : Option (List Article) :=
  let title := e.title.getD "No title"
  let link := e.link.getD "No link"
  match format_date o.strptime o.strftime (e.published.getD "No date") with
  | none => none
  | some date =>
    some (match extract_article_content (o.fetchArticle link) 500 with
      | none => []
      | some content =>
        match generate_questions_and_answers (o.genResp title content) with
        | none => []
        | some qa_pairs =>
          if qa_pairs.isEmpty then []
          else appendPairs title link date content qa_pairs)

/-- The per-feed entry loop of process_articles over the recency-filtered
(and, in test mode, capped) entries, concatenating the articles each
entry contributes. -/
def processFeedGo (o : Oracles) : List FeedEntry → Option (List Article)
  | [] => some []
  | e :: rest =>
    match processEntry o e with
    | none => none
    | some as =>
      match processFeedGo o rest with
      | none => none
      | some bs => some (as ++ bs)

/-- One feed of process_articles: fetch, skip an empty feed, filter the
entries by is_within_24_hours, cap at 5 entries in test mode, process
each remaining entry. -/
def processFeed (o : Oracles) (test : Bool) (f : Feed) :
    Option (List Article) :=
  let entries := o.fetch f.url
  if entries.isEmpty then some []
  else
    let recent := entries.filter
      (fun e => is_within_24_hours o.strptime o.nowUtc (e.published.getD "No date"))
    processFeedGo o (if test then recent.take 5 else recent)

/-- The feed loop of process_articles, accumulating candidates across all
feeds in discovery order. -/
def processFeedsGo (o : Oracles) (test : Bool) : List Feed → Option (List Article)
  | [] => some []
  | f :: rest =>
    match processFeed o test f with
    | none => none
    | some as =>
      match processFeedsGo o test rest with
      | none => none
      | some bs => some (as ++ bs)

/-- process_articles from src/realtime_eval/core/question_generator.py:
accumulate candidates across feeds, evaluate them once, and return the
selection articles i for i in indices_to_keep. -/
def process_articles (o : Oracles) (feeds : List Feed) (test : Bool) :
    Option (List Article) :=
  match processFeedsGo o test feeds with
  | none => none
  | some articles =>
    selectIndices articles (evaluate_questions articles o.evalResp)

/-- C4 (amended): per-article generation failures are caught at the
article boundary and never abort the feed or the run (whenever the
format_date call before the try block succeeds, processEntry returns some
list); a failure signalled by the generator itself (malformed payload or
skip sentinel, that is a none result) contributes zero candidates; but a
missing field inside the k-th qa_pair stops the append loop after the
first k-1 pairs have already been appended, so the article contributes
exactly the articles built from the pairs preceding the failing one,
which need not be zero. -/
theorem generation_failure_article_boundary :
    (∀ (o : Oracles) (e : FeedEntry),
      (format_date o.strptime o.strftime (e.published.getD "No date")).isSome = true →
      (processEntry o e).isSome = true) ∧
    (∀ (o : Oracles) (e : FeedEntry) (date content : String),
      format_date o.strptime o.strftime (e.published.getD "No date") = some date →
      extract_article_content (o.fetchArticle (e.link.getD "No link")) 500 =
        some content →
      generate_questions_and_answers (o.genResp (e.title.getD "No title") content) =
        none →
      processEntry o e = some []) ∧
    (∀ (t l d c : String) (pre : List QAPairObj) (p : QAPairObj)
        (rest : List QAPairObj),
      (∀ x ∈ pre, (mkArticle t l d c x).isSome = true) →
      mkArticle t l d c p = none →
      appendPairs t l d c (pre ++ p :: rest) =
        pre.filterMap (mkArticle t l d c)) := by
  refine ⟨?_, ?_, ?_⟩
  · intro o e h
    rw [Option.isSome_iff_exists] at h
    obtain ⟨date, hfd⟩ := h
    simp [processEntry, hfd]
  · intro o e date content hfd hex hgen
    simp [processEntry, hfd, hex, hgen]
  · intro t l d c pre
    induction pre with
    | nil =>
      intro p rest _ hp
      simp [appendPairs, hp]
    | cons x pre ih =>
      intro p rest hpre hp
      have hx := hpre x (List.mem_cons_self x pre)
      rw [Option.isSome_iff_exists] at hx
      obtain ⟨a, ha⟩ := hx
      have htail := ih p rest (fun y hy => hpre y (List.mem_cons_of_mem x hy)) hp
      simp [appendPairs, ha, htail, List.filterMap_cons]

/-- A 502-character article body, long enough to pass the 500-character
minimum after stripping. -/
def bigStr : String := String.mk (List.replicate 502 'x')

/-- Concrete feed entry used in the process_articles runs below. -/
def entry4 : FeedEntry :=
  { title := some "T", link := some "L", published := some "d" }

/-- Concrete oracles: the published date d parses under the first format
to an instant within the window, extraction yields the long body, and the
generator answers with one complete pair followed by a pair missing its
answer and answer_context keys. -/
def oracles4 : Oracles :=
  { fetch := fun _ => [entry4]
    strptime := fun s fmt =>
      if s = "d" && fmt = "%a, %d %b %Y %H:%M:%S %z" then
        some { instant := 100, tz := some 0 }
      else none
    strftime := fun _ => "D"
    nowUtc := 100
    fetchArticle := fun _ => FetchOutcome.ok bigStr
    genResp := fun _ _ => GenResponse.json (GenParsed.dict
      [QAPairObj.obj (some "q1") (some "a1") (some "c1"),
       QAPairObj.obj (some "q2") none none])
    evalResp := fun _ => EvalOutcome.ok [0] }

theorem generation_partial_append_cex :
    mkArticle "T" "L" "D" bigStr (QAPairObj.obj (some "q2") none none) = none ∧
    processEntry oracles4 entry4 ≠ none ∧
    (processEntry oracles4 entry4).getD [] ≠ [] := by decide

/-- Variant of the oracles whose generator reply is not JSON. -/
def oracles4b : Oracles :=
  { oracles4 with genResp := fun _ _ => GenResponse.notJson }

theorem generation_failure_article_boundary_witness :
    (processEntry oracles4 entry4).isSome = true ∧
    processEntry oracles4b entry4 = some [] ∧
    appendPairs "T" "L" "D" bigStr
      ([QAPairObj.obj (some "q1") (some "a1") (some "c1")] ++
        QAPairObj.obj (some "q2") none none :: []) =
      [QAPairObj.obj (some "q1") (some "a1") (some "c1")].filterMap
        (mkArticle "T" "L" "D" bigStr) :=
  ⟨generation_failure_article_boundary.1 oracles4 entry4 (by decide),
   generation_failure_article_boundary.2.1 oracles4b entry4 "D" bigStr
     (by decide) (by decide) rfl,
   generation_failure_article_boundary.2.2 "T" "L" "D" bigStr
     [QAPairObj.obj (some "q1") (some "a1") (some "c1")]
     (QAPairObj.obj (some "q2") none none) [] (by decide) (by decide)⟩

theorem keep_sorted_bounded (articles : List Article)
    (oracle : Nat → EvalOutcome) (ks : Nat → List Nat)
    (hok : ∀ b, oracle b = EvalOutcome.ok (ks b))
    (hsorted : ∀ b, b < (batches articles).length → (ks b).Pairwise (· < ·))
    (hbound : ∀ b k, b < (batches articles).length → k ∈ ks b →
      k < 5 ∧ 5 * b + k < articles.length) :
    (evaluate_questions articles oracle).Pairwise (· < ·) ∧
    ∀ i ∈ evaluate_questions articles oracle, i < articles.length := by
  rw [evaluate_questions_ok_eq articles oracle ks hok]
  constructor
  · rw [List.pairwise_flatten]
    constructor
    · intro l' hl'
      rw [List.mem_map] at hl'
      obtain ⟨b, hb, rfl⟩ := hl'
      rw [List.mem_range] at hb
      rw [List.pairwise_map]
      exact List.Pairwise.imp (fun h => Nat.add_lt_add_left h (5 * b))
        (hsorted b hb)
    · rw [List.pairwise_map]
      refine List.Pairwise.imp_of_mem ?_
        (List.pairwise_lt_range (batches articles).length)
      intro b b' hb hb' hlt x hx y hy
      rw [List.mem_range] at hb hb'
      rw [List.mem_map] at hx hy
      obtain ⟨k, hk, rfl⟩ := hx
      obtain ⟨k', hk', rfl⟩ := hy
      have h1 := hbound b k hb hk
      omega
  · intro i hi
    rw [List.mem_flatten] at hi
    obtain ⟨l', hl', hil⟩ := hi
    rw [List.mem_map] at hl'
    obtain ⟨b, hb, rfl⟩ := hl'
    rw [List.mem_range] at hb
    rw [List.mem_map] at hil
    obtain ⟨k, hk, rfl⟩ := hil
    exact (hbound b k hb hk).2

theorem selectIndices_sorted (articles : List Article) :
    ∀ (idxs : List Nat) (m : Nat), idxs.Pairwise (· < ·) →
      (∀ i ∈ idxs, m ≤ i ∧ i < articles.length) →
      ∃ out, selectIndices articles idxs = some out ∧
        out.Sublist (articles.drop m) := by
  intro idxs
  induction idxs with
  | nil =>
    intro m _ _
    exact ⟨[], rfl, List.nil_sublist _⟩
  | cons i rest ih =>
    intro m hpw hb
    have hi := hb i (List.mem_cons_self i rest)
    have hpw' := List.pairwise_cons.mp hpw
    have hrest : ∀ j ∈ rest, i + 1 ≤ j ∧ j < articles.length := by
      intro j hj
      exact ⟨hpw'.1 j hj, (hb j (List.mem_cons_of_mem i hj)).2⟩
    obtain ⟨out, hsel, hsub⟩ := ih (i + 1) hpw'.2 hrest
    have hget : articles[i]? = some (articles.get ⟨i, hi.2⟩) := by
      rw [List.get_eq_getElem]
      exact List.getElem?_eq_getElem hi.2
    refine ⟨articles.get ⟨i, hi.2⟩ :: out, ?_, ?_⟩
    · simp [selectIndices, hget, hsel, List.get_eq_getElem]
    · have hdrop : articles.drop i = articles.get ⟨i, hi.2⟩ :: articles.drop (i + 1) := by
        rw [List.get_eq_getElem]
        exact List.drop_eq_getElem_cons hi.2
      have h1 : (articles.get ⟨i, hi.2⟩ :: out).Sublist (articles.drop i) := by
        rw [hdrop]
        exact List.Sublist.cons₂ _ hsub
      have h2 : (articles.drop i).Sublist (articles.drop m) := by
        have heq : articles.drop i = (articles.drop m).drop (i - m) := by
          rw [List.drop_drop]
          congr 1
          omega
        rw [heq]
        exact List.drop_sublist _ _
      exact h1.trans h2

/-- C3 (amended): the selection applied at the end of process_articles is
an order-preserving filter of the accumulated candidate list provided the
evaluator LLM behaves: every batch call succeeds and each batch's
returned index list is strictly increasing, with every batch-local index
below the batch size 5 and every translated global index in range.  In
that case the selection succeeds and the accepted list is a sublist of
the candidates, that is, it keeps their original relative order.  Without
those conditions the claim is false: the comprehension applies the
indices in the order the LLM returned them, so an out-of-order batch
reply reorders the output (see the counterexample). -/
theorem accepted_order_stable_of_sorted_indices (articles : List Article)
    (oracle : Nat → EvalOutcome) (ks : Nat → List Nat)
    (hok : ∀ b, oracle b = EvalOutcome.ok (ks b))
    (hsorted : ∀ b, b < (batches articles).length → (ks b).Pairwise (· < ·))
    (hbound : ∀ b k, b < (batches articles).length → k ∈ ks b →
      k < 5 ∧ 5 * b + k < articles.length) :
    ∃ out, selectIndices articles (evaluate_questions articles oracle) = some out ∧
      out.Sublist articles := by
  obtain ⟨hpw, hmem⟩ := keep_sorted_bounded articles oracle ks hok hsorted hbound
  obtain ⟨out, hsel, hsub⟩ := selectIndices_sorted articles
    (evaluate_questions articles oracle) 0 hpw
    (fun i hi => ⟨Nat.zero_le i, hmem i hi⟩)
  refine ⟨out, hsel, ?_⟩
  simpa using hsub

/-- Concrete strictly increasing, in-range batch-local keep lists for the
six-candidate witness run: batch 0 keeps 0 and 2, batch 1 keeps 0. -/
def ks3w : Nat → List Nat
  | 0 => [0, 2]
  | _ + 1 => [0]

/-- Well-behaved evaluator oracle for the stable-order witness. -/
def orc3w : Nat → EvalOutcome := fun b => EvalOutcome.ok (ks3w b)

theorem accepted_order_stable_witness :
    ∃ out, selectIndices arts6 (evaluate_questions arts6 orc3w) = some out ∧
      out.Sublist arts6 :=
  accepted_order_stable_of_sorted_indices arts6 orc3w ks3w (fun b => rfl)
    (by
      intro b hb
      match b with
      | 0 => decide
      | b + 1 =>
        show List.Pairwise (· < ·) [0]
        simp)
    (by
      intro b k hb hk
      have hlen : (batches arts6).length = 2 := by decide
      rw [hlen] at hb
      match b, hb with
      | 0, _ =>
        simp only [ks3w, List.mem_cons, List.not_mem_nil, or_false] at hk
        rcases hk with rfl | rfl <;> decide
      | 1, _ =>
        simp only [ks3w, List.mem_cons, List.not_mem_nil, or_false] at hk
        subst hk
        decide)

/-- Oracles for the reordering counterexample: one entry yields two
complete QA pairs, and the single evaluator batch returns its two
batch-local indices out of order, as the JSON list 1, 0. -/
def oracles3 : Oracles :=
  { oracles4 with
    genResp := fun _ _ => GenResponse.json (GenParsed.dict
      [QAPairObj.obj (some "q1") (some "a1") (some "c1"),
       QAPairObj.obj (some "q2") (some "a2") (some "c2")])
    evalResp := fun _ => EvalOutcome.ok [1, 0] }

/-- The single feed of the reordering counterexample. -/
def feed3 : Feed := { name := "f", url := "u" }

/-- First candidate appended during generation in the counterexample. -/
def art3a : Article :=
  { title := "T", link := "L", date := "D", content := some bigStr,
    question := some "q1", answer := some "a1", answer_context := some "c1" }

/-- Second candidate appended during generation in the counterexample. -/
def art3b : Article :=
  { title := "T", link := "L", date := "D", content := some bigStr,
    question := some "q2", answer := some "a2", answer_context := some "c2" }

theorem evaluation_reorders_cex :
    processFeedsGo oracles3 false [feed3] = some [art3a, art3b] ∧
    process_articles oracles3 [feed3] false = some [art3b, art3a] ∧
    ¬ ([art3b, art3a].Sublist [art3a, art3b]) := by decide

/-- The feeds.json file as load_feeds observes it: the file is absent
(FileNotFoundError), its content is not valid JSON (json.JSONDecodeError),
it is valid JSON but not an object carrying a feeds key (the subscript
raises KeyError or TypeError), or it has the expected shape. -/
inductive FeedsFile where
  | missing
  | notJson
  | wrongShape
  | wellFormed (feeds : List Feed)
  deriving DecidableEq

/-- load_feeds from src/realtime_eval/core/feed_handler.py.  Only
FileNotFoundError and JSONDecodeError are caught (logged, empty list
returned); the subscript error on JSON of the wrong shape is uncaught and
escapes, which is the none case. -/
def load_feeds : FeedsFile → Option (List Feed)
  | FeedsFile.missing => some []
  | FeedsFile.notJson => some []
  | FeedsFile.wrongShape => none
  | FeedsFile.wellFormed fs => some fs

/-- Whether load_feeds printed its error-loading-feeds diagnostic: exactly
the two caught cases. -/
def load_feeds_logged : FeedsFile → Bool
  | FeedsFile.missing => true
  | FeedsFile.notJson => true
  | _ => false

/-- Observable outcome of one invocation of main in
src/realtime_eval/__main__.py (src/question_generator.py has the same
control flow): which diagnostics were printed, whether any network
activity happened (the first network call sits inside process_articles;
nothing before it touches the network), the dataset handed to
save_dataset if the run got that far, and the process exit status (0 for
a plain return from main, 1 for an uncaught exception). -/
structure MainTrace where
  printedConfigError : Bool
  printedFeedsError : Bool
  networkActivity : Bool
  savedDataset : Option (List Article)
  exitCode : Nat
  deriving DecidableEq

/-- main from src/realtime_eval/__main__.py.  The api_key is the value of
the GROQ_API_KEY environment variable (none when unset); Python's
if not api_key also treats the empty string as missing.  The run argument
stands for process_articles applied to the already-fixed oracles. -/
def pyMain (api_key : Option String) (feedsFile : FeedsFile)
    (run : List Feed → Option (List Article)) : MainTrace :=
  match api_key with
  | none =>
    { printedConfigError := true, printedFeedsError := false,
      networkActivity := false, savedDataset := none, exitCode := 0 }
  | some key =>
    if key = "" then
      { printedConfigError := true, printedFeedsError := false,
        networkActivity := false, savedDataset := none, exitCode := 0 }
    else
      match load_feeds feedsFile with
      | none =>
        { printedConfigError := false,
          printedFeedsError := load_feeds_logged feedsFile,
          networkActivity := false, savedDataset := none, exitCode := 1 }
      | some [] =>
        { printedConfigError := false,
          printedFeedsError := load_feeds_logged feedsFile,
          networkActivity := false, savedDataset := none, exitCode := 0 }
      | some (f :: fs) =>
        match run (f :: fs) with
        | none =>
          { printedConfigError := false,
            printedFeedsError := load_feeds_logged feedsFile,
            networkActivity := true, savedDataset := none, exitCode := 1 }
        | some arts =>
          { printedConfigError := false,
            printedFeedsError := load_feeds_logged feedsFile,
            networkActivity := true, savedDataset := some arts, exitCode := 0 }

theorem missing_key_exit_zero_cex :
    (pyMain none FeedsFile.missing (fun _ => some [])).exitCode = 0 := by decide

/-- C8 (amended): when GROQ_API_KEY is unset, or set to the empty string,
main prints its diagnostic and returns before any network activity and
before any further work; the process then terminates normally, with exit
status 0, not with a non-zero status as claimed. -/
theorem missing_key_aborts_without_network (feedsFile : FeedsFile)
    (run : List Feed → Option (List Article)) :
    pyMain none feedsFile run =
      { printedConfigError := true, printedFeedsError := false,
        networkActivity := false, savedDataset := none, exitCode := 0 } ∧
    pyMain (some "") feedsFile run =
      { printedConfigError := true, printedFeedsError := false,
        networkActivity := false, savedDataset := none, exitCode := 0 } :=
  ⟨rfl, rfl⟩

theorem feeds_wrong_shape_crash_cex :
    load_feeds FeedsFile.wrongShape = none ∧
    (pyMain (some "k") FeedsFile.wrongShape (fun _ => some [])).exitCode ≠ 0 := by
  decide

/-- C9 (amended): a missing feeds.json, or one whose content is not valid
JSON, makes load_feeds log a diagnostic and return the empty collection,
and main then completes as an empty run: no network activity, no dataset
written, exit status 0.  But valid JSON of the wrong shape is outside the
caught exception classes: the subscript raises, load_feeds propagates the
exception and the run crashes instead of completing empty (see the
counterexample). -/
theorem feeds_missing_or_invalid_empty_run (key : String) (hkey : ¬ key = "")
    (run : List Feed → Option (List Article)) :
    pyMain (some key) FeedsFile.missing run =
      { printedConfigError := false, printedFeedsError := true,
        networkActivity := false, savedDataset := none, exitCode := 0 } ∧
    pyMain (some key) FeedsFile.notJson run =
      { printedConfigError := false, printedFeedsError := true,
        networkActivity := false, savedDataset := none, exitCode := 0 } := by
  constructor <;> simp [pyMain, hkey, load_feeds, load_feeds_logged]

theorem feeds_missing_or_invalid_empty_run_witness :
    pyMain (some "k") FeedsFile.missing (fun _ => some []) =
      { printedConfigError := false, printedFeedsError := true,
        networkActivity := false, savedDataset := none, exitCode := 0 } ∧
    pyMain (some "k") FeedsFile.notJson (fun _ => some []) =
      { printedConfigError := false, printedFeedsError := true,
        networkActivity := false, savedDataset := none, exitCode := 0 } :=
  feeds_missing_or_invalid_empty_run "k" (by decide) (fun _ => some [])

end RealtimeEval
